import Mathlib

/-! Shallow embedding of the parking-reservation server booking admission
and lifecycle logic, translated from the Express route handlers in
server/routes/bookings.js, server/routes/spaces.js,
server/routes/payments.js, and the Joi schemas in
server/middleware/validation.js.

Conventions of the embedding:
* timestamps are integers (milliseconds, as produced by Date arithmetic in
  the handlers; the ordering the store applies to ISO-8601 timestamp
  strings agrees with this numeric order);
* status and role values are the literal strings of the JavaScript code;
* monetary values (decimal columns with two fraction digits in the schema)
  are integers in cents, an exact representation of that value space;
  every arithmetic operation the routes perform on money (multiplication
  by an integer hour count, equality comparison) is exact in either
  representation;
* the nondeterministic payment-processor outcome (Math.random compared
  with 0.1) is an explicit boolean input;
* generated identifiers (uuidv4, payment ids) are explicit inputs, and the
  QR payload (a function of booking id, space number and window, never
  read back by the core) is omitted;
* each route handler is a function from the database state and the request
  to a result and the new database state; display-only space columns
  (number, floor, section, type, position) are omitted.
-/

namespace Parking

structure ParkingSpace where
  id : Nat
  status : String
  hourlyRate : Int
  deriving Repr, DecidableEq

structure Booking where
  id : Nat
  userId : Nat
  spaceId : Nat
  startTime : Int
  endTime : Int
  totalAmount : Int
  status : String
  paymentStatus : String
  vehicleNumber : Option String
  cancelledAt : Option Int
  deriving Repr, DecidableEq

structure Payment where
  id : Nat
  userId : Nat
  bookingId : Nat
  amount : Int
  method : String
  status : String
  deriving Repr, DecidableEq

structure DB where
  spaces : List ParkingSpace
  bookings : List Booking
  payments : List Payment
  deriving Repr, DecidableEq

/-- Lookup of a space row by id, `.select().eq(id, x).single()`. -/
def findSpace (db : DB) (id : Nat) : Option ParkingSpace :=
  db.spaces.find? (fun sp => sp.id == id)

/-- Lookup of a booking row by id, `.select().eq(id, x).single()`. -/
def findBooking (db : DB) (id : Nat) : Option Booking :=
  db.bookings.find? (fun b => b.id == id)

/-- Write of the status column of one space row. -/
def setSpaceStatus (db : DB) (id : Nat) (st : String) : DB :=
  { db with spaces := db.spaces.map (fun sp => if sp.id == id then { sp with status := st } else sp) }

/-- Update of one booking row by id. -/
def mapBooking (db : DB) (id : Nat) (f : Booking → Booking) : DB :=
  { db with bookings := db.bookings.map (fun b => if b.id == id then f b else b) }

/-- The role check used by the booking routes: role is staff or admin. -/
def isStaffOrAdmin (role : String) : Bool :=
  role == "staff" || role == "admin"

/-- The window part of the conflict filter of createBooking, the supabase
or-group `start_time.lte.END,end_time.gte.START`: the existing window
matches the requested window iff bStart LE reqEnd OR bEnd GE reqStart. -/
def createOrTest (bStart bEnd reqStart reqEnd : Int) : Bool :=
  decide (bStart ≤ reqEnd) || decide (bEnd ≥ reqStart)

/-- The window part of the availability route filter,
`.gte(end_time, startDate).lte(start_time, endDate)`. -/
def availWindowTest (bStart bEnd startDate endDate : Int) : Bool :=
  decide (bEnd ≥ startDate) && decide (bStart ≤ endDate)

/-- GET spaces/:id/availability: bookings of the space with status
confirmed or active whose window passes `availWindowTest`. -/
def availabilityBookings (db : DB) (spaceId : Nat) (startDate endDate : Int) : List Booking :=
  db.bookings.filter (fun b =>
    b.spaceId == spaceId &&
    (b.status == "confirmed" || b.status == "active") &&
    availWindowTest b.startTime b.endTime startDate endDate)

def msPerHour : Nat := 1000 * 60 * 60

/-- Math.ceil of the millisecond duration divided by one hour, for a
window already validated to satisfy start before end (the Joi schema
requires endTime greater than startTime), computed as the ceiling
division of the positive duration by `msPerHour`. -/
def ceilHours (startTime endTime : Int) : Nat :=
  ((endTime - startTime).toNat + (msPerHour - 1)) / msPerHour

/-- The conflict query of createBooking: bookings of the space with status
confirmed or active whose window passes the or-filter. Note that the
status list of the query does not include pending. -/
def conflictingBookings (db : DB) (spaceId : Nat) (startTime endTime : Int) : List Booking :=
  db.bookings.filter (fun b =>
    b.spaceId == spaceId &&
    (b.status == "confirmed" || b.status == "active") &&
    createOrTest b.startTime b.endTime startTime endTime)

structure CreateReq where
  userId : Nat
  spaceId : Nat
  startTime : Int
  endTime : Int
  vehicleNumber : Option String
  newId : Nat
  deriving Repr, DecidableEq

inductive CreateRes where
  | validationError
  | spaceNotFound
  | spaceUnavailable
  | conflict
  | created (b : Booking)
  deriving Repr, DecidableEq

/-- POST bookings (create new booking). The Joi schema rejects requests
whose endTime is not greater than startTime; the handler then looks up
the space, requires its status to be available, queries for conflicting
bookings, computes the amount, inserts the booking with status pending
and payment status pending, and sets the space status to reserved. -/
def createBooking (db : DB) (r : CreateReq) : CreateRes × DB :=
  if !(decide (r.startTime < r.endTime)) then (.validationError, db)
  else
    match findSpace db r.spaceId with
    | none => (.spaceNotFound, db)
    | some space =>
      if space.status != "available" then (.spaceUnavailable, db)
      else if (conflictingBookings db r.spaceId r.startTime r.endTime).length > 0 then
        (.conflict, db)
      else
        let hours := ceilHours r.startTime r.endTime
        let b : Booking :=
          { id := r.newId, userId := r.userId, spaceId := r.spaceId,
            startTime := r.startTime, endTime := r.endTime,
            totalAmount := (hours : Int) * space.hourlyRate,
            status := "pending", paymentStatus := "pending",
            vehicleNumber := r.vehicleNumber, cancelledAt := none }
        let db1 : DB := { db with bookings := db.bookings ++ [b] }
        (.created b, setSpaceStatus db1 r.spaceId "reserved")

/-- The legal values of the status field in the Joi updateBooking schema. -/
def validStatuses : List String :=
  ["pending", "confirmed", "active", "completed", "cancelled"]

structure UpdateReq where
  userId : Nat
  role : String
  bookingId : Nat
  status : Option String
  vehicleNumber : Option String
  deriving Repr, DecidableEq

inductive UpdateRes where
  | validationError
  | notFound
  | forbidden
  | updated (b : Booking)
  deriving Repr, DecidableEq

/-- Joi validation of the update body: when a status is supplied it must
be one of `validStatuses`. -/
def updateStatusValid : Option String → Bool
  | none => true
  | some s => validStatuses.contains s

/-- The updates object of the update handler applied to a booking row:
status is overwritten when supplied, vehicle number is overwritten when
supplied. -/
def applyUpdates (b : Booking) (r : UpdateReq) : Booking :=
  { b with
    status := match r.status with | some s => s | none => b.status,
    vehicleNumber := match r.vehicleNumber with | some v => some v | none => b.vehicleNumber }

/-- The mapping of the update handler from a supplied booking status to
the space status it writes: occupied for active, reserved for confirmed,
available for everything else. -/
def spaceStatusFor (s : String) : String :=
  if s == "active" then "occupied"
  else if s == "confirmed" then "reserved"
  else "available"

/-- PUT bookings/:id (update booking). After validation, looks up the
booking, checks that the caller owns it or is staff or admin, applies the
updates, and, when a status was supplied, writes `spaceStatusFor` of that
status to the space of the booking. -/
def updateBooking (db : DB) (r : UpdateReq) : UpdateRes × DB :=
  if !(updateStatusValid r.status) then (.validationError, db)
  else
    match findBooking db r.bookingId with
    | none => (.notFound, db)
    | some b0 =>
      if b0.userId != r.userId && !(isStaffOrAdmin r.role) then (.forbidden, db)
      else
        let b1 := applyUpdates b0 r
        let db1 := mapBooking db r.bookingId (fun b => applyUpdates b r)
        match r.status with
        | some s => (.updated b1, setSpaceStatus db1 b1.spaceId (spaceStatusFor s))
        | none => (.updated b1, db1)

structure CancelReq where
  userId : Nat
  role : String
  bookingId : Nat
  now : Int
  deriving Repr, DecidableEq

inductive CancelRes where
  | notFound
  | forbidden
  | notCancellable
  | ok
  deriving Repr, DecidableEq

/-- DELETE bookings/:id (cancel booking). Looks up the booking, checks
ownership or staff or admin, rejects when the status is completed or
cancelled, otherwise sets the booking to cancelled with a cancellation
timestamp and sets the space status to available. -/
def cancelBooking (db : DB) (r : CancelReq) : CancelRes × DB :=
  match findBooking db r.bookingId with
  | none => (.notFound, db)
  | some b0 =>
    if b0.userId != r.userId && !(isStaffOrAdmin r.role) then (.forbidden, db)
    else if b0.status == "completed" || b0.status == "cancelled" then (.notCancellable, db)
    else
      let db1 := mapBooking db r.bookingId
        (fun b => { b with status := "cancelled", cancelledAt := some r.now })
      (.ok, setSpaceStatus db1 b0.spaceId "available")

/-- The legal values of the method field in the Joi processPayment schema. -/
def validMethods : List String := ["card", "paypal", "wallet", "cash"]

structure PayReq where
  userId : Nat
  bookingId : Nat
  method : String
  amount : Int
  processorSucceeds : Bool
  newPaymentId : Nat
  deriving Repr, DecidableEq

inductive PayRes where
  | validationError
  | notFound
  | forbidden
  | amountMismatch
  | alreadyPaid
  | processed (paymentStatus : String)
  deriving Repr, DecidableEq

/-- POST payments (process payment). After validation (method in the
legal set, positive amount), looks up the booking, requires the caller to
own it, requires the amount to equal the booking total, rejects when the
booking is already paid, records a payment row whose status is completed
or failed according to the simulated processor outcome, and only on
completed sets the booking payment status to paid and its status to
confirmed. -/
def processPayment (db : DB) (r : PayReq) : PayRes × DB :=
  if !(validMethods.contains r.method && decide (0 < r.amount)) then (.validationError, db)
  else
    match findBooking db r.bookingId with
    | none => (.notFound, db)
    | some booking =>
      if booking.userId != r.userId then (.forbidden, db)
      else if r.amount != booking.totalAmount then (.amountMismatch, db)
      else if booking.paymentStatus == "paid" then (.alreadyPaid, db)
      else
        let pStatus := if r.processorSucceeds then "completed" else "failed"
        let p : Payment :=
          { id := r.newPaymentId, userId := r.userId, bookingId := r.bookingId,
            amount := r.amount, method := r.method, status := pStatus }
        let db1 : DB := { db with payments := db.payments ++ [p] }
        if r.processorSucceeds then
          (.processed pStatus,
            mapBooking db1 r.bookingId
              (fun b => { b with paymentStatus := "paid", status := "confirmed" }))
        else
          (.processed pStatus, db1)

/-- POST spaces (admin): a new space row is created with status available
(display-only columns of the route are omitted here). -/
def addSpace (db : DB) (id : Nat) (rate : Int) : DB :=
  { db with spaces := db.spaces ++ [{ id := id, status := "available", hourlyRate := rate }] }

/-- One client-visible operation against the store. -/
inductive Op where
  | addSpace (id : Nat) (rate : Int)
  | create (r : CreateReq)
  | update (r : UpdateReq)
  | cancel (r : CancelReq)
  | pay (r : PayReq)
  deriving Repr, DecidableEq

def applyOp (db : DB) : Op → DB
  | .addSpace id rate => addSpace db id rate
  | .create r => (createBooking db r).2
  | .update r => (updateBooking db r).2
  | .cancel r => (cancelBooking db r).2
  | .pay r => (processPayment db r).2

def initDB : DB := { spaces := [], bookings := [], payments := [] }

/-- The store state reached by running a sequence of operations from the
empty store. -/
def runOps (ops : List Op) : DB := ops.foldl applyOp initDB

/-- The half-open overlap test of the specification on two windows:
s1 LT e2 AND s2 LT e1. -/
def overlapHalfOpen (s1 e1 s2 e2 : Int) : Bool :=
  decide (s1 < e2) && decide (s2 < e1)

/-- The statuses the specification calls live for the overlap invariant. -/
def liveStatuses : List String := ["pending", "confirmed", "active"]

/-- The invariant of the specification: no two distinct live bookings of
one space have overlapping windows. -/
def noOverlapInvariant (db : DB) : Prop :=
  ∀ b1 ∈ db.bookings, ∀ b2 ∈ db.bookings,
    b1.id ≠ b2.id → b1.spaceId = b2.spaceId →
    b1.status ∈ liveStatuses → b2.status ∈ liveStatuses →
    overlapHalfOpen b1.startTime b1.endTime b2.startTime b2.endTime = false

instance (db : DB) : Decidable (noOverlapInvariant db) := by
  unfold noOverlapInvariant
  infer_instance

/-! Concrete fixtures used by the counterexamples and witnesses below.
Timestamps are milliseconds from midnight of some day, so 09:00 is
32400000, 10:00 is 36000000, 10:30 is 37800000, 11:00 is 39600000,
12:00 is 43200000, 13:00 is 46800000; an hourly rate of 1000 cents is
ten dollars per hour and 2000 cents is twenty dollars. -/

/-- One space, id 1, available at ten dollars per hour. -/
def oneSpaceDB : DB := addSpace initDB 1 1000

/-- Booking request for space 1, 09:00 to 11:00. -/
def reqNineToEleven : CreateReq :=
  { userId := 1, spaceId := 1, startTime := 32400000, endTime := 39600000,
    vehicleNumber := none, newId := 100 }

/-- Booking request for space 1, 10:30 to 12:00 (overlaps 09:00 to 11:00). -/
def reqTenThirtyToTwelve : CreateReq :=
  { userId := 2, spaceId := 1, startTime := 37800000, endTime := 43200000,
    vehicleNumber := none, newId := 101 }

/-- Booking request for space 1, 11:00 to 12:00 (touches 09:00 to 11:00). -/
def reqElevenToTwelve : CreateReq :=
  { userId := 3, spaceId := 1, startTime := 39600000, endTime := 43200000,
    vehicleNumber := none, newId := 102 }

/-- The booking created by `reqNineToEleven` on `oneSpaceDB`. -/
def bookingNineToEleven : Booking :=
  { id := 100, userId := 1, spaceId := 1, startTime := 32400000, endTime := 39600000,
    totalAmount := 2000, status := "pending", paymentStatus := "pending",
    vehicleNumber := none, cancelledAt := none }

/-- The store after the 09:00 to 11:00 booking was created on `oneSpaceDB`. -/
def afterFirstBookingDB : DB := (createBooking oneSpaceDB reqNineToEleven).2

/-- An operation sequence from the empty store: a space is created, booked
09:00 to 11:00, the owner updates the booking with status pending (which
rewrites the space status to available), and an overlapping 10:00 to
13:00 booking is then created on the same space. -/
def doubleBookingTrace : List Op :=
  [ .addSpace 1 1000,
    .create reqNineToEleven,
    .update { userId := 1, role := "customer", bookingId := 100,
              status := some "pending", vehicleNumber := none },
    .create { userId := 2, spaceId := 1, startTime := 36000000, endTime := 46800000,
              vehicleNumber := none, newId := 101 } ]

/-- An available space that carries the pending 09:00 to 11:00 booking. -/
def pendingOnlyDB : DB :=
  { spaces := [{ id := 1, status := "available", hourlyRate := 1000 }],
    bookings := [bookingNineToEleven],
    payments := [] }

/-- A space under maintenance. -/
def maintenanceSpace : ParkingSpace := { id := 1, status := "maintenance", hourlyRate := 1000 }

/-- A confirmed, paid booking on space 1 from 09:00 to 11:00. -/
def confirmedBooking : Booking :=
  { id := 100, userId := 1, spaceId := 1, startTime := 32400000, endTime := 39600000,
    totalAmount := 2000, status := "confirmed", paymentStatus := "paid",
    vehicleNumber := none, cancelledAt := none }

/-- A maintenance space with a confirmed paid booking on it. -/
def maintenanceDB : DB :=
  { spaces := [maintenanceSpace], bookings := [confirmedBooking], payments := [] }

/-- A pending, unpaid booking on space 1 from 09:00 to 11:00. -/
def pendingBooking : Booking := bookingNineToEleven

/-- A reserved space with the pending unpaid booking on it. -/
def pendingPaymentDB : DB :=
  { spaces := [{ id := 1, status := "reserved", hourlyRate := 1000 }],
    bookings := [pendingBooking],
    payments := [] }

/-- An active booking on space 1 from 09:00 to 11:00. -/
def activeBooking : Booking :=
  { id := 100, userId := 1, spaceId := 1, startTime := 32400000, endTime := 39600000,
    totalAmount := 2000, status := "active", paymentStatus := "paid",
    vehicleNumber := none, cancelledAt := none }

/-- An occupied space with the active booking on it. -/
def activeBookingDB : DB :=
  { spaces := [{ id := 1, status := "occupied", hourlyRate := 1000 }],
    bookings := [activeBooking],
    payments := [] }

/-- Update request setting booking 100 to status active, sent by its owner. -/
def updActiveReq : UpdateReq :=
  { userId := 1, role := "customer", bookingId := 100,
    status := some "active", vehicleNumber := none }

/-- Update request setting booking 100 to status completed, sent by its owner. -/
def updCompletedReq : UpdateReq :=
  { userId := 1, role := "customer", bookingId := 100,
    status := some "completed", vehicleNumber := none }

/-- Update request for booking 100 carrying an unrecognized status string. -/
def updGarbageReq : UpdateReq :=
  { userId := 1, role := "customer", bookingId := 100,
    status := some "garbage", vehicleNumber := none }

/-- Cancellation request for booking 100 by its owner at 12:00. -/
def cancelReq100 : CancelReq :=
  { userId := 1, role := "customer", bookingId := 100, now := 43200000 }

/-- Payment request for booking 100 whose simulated processor outcome is
a failure. -/
def payFailReq : PayReq :=
  { userId := 1, bookingId := 100, method := "card", amount := 2000,
    processorSucceeds := false, newPaymentId := 7 }

end Parking

namespace Parking

/-- Ceiling division of naturals, expressed through the ceiling of the
rational quotient. -/
theorem natCeilDiv_eq_ceil (n H : Nat) (hH : 0 < H) :
    (((n + (H - 1)) / H : Nat) : Int) = ⌈(n : ℚ) / (H : ℚ)⌉ := by
  have key := Nat.div_add_mod (n + (H - 1)) H
  have hm : (n + (H - 1)) % H < H := Nat.mod_lt _ hH
  obtain ⟨q, hq⟩ : ∃ q, q = (n + (H - 1)) / H := ⟨_, rfl⟩
  rw [← hq] at key ⊢
  obtain ⟨p, hp⟩ : ∃ p, p = H * q := ⟨_, rfl⟩
  rw [← hp] at key
  have hub : n ≤ p := by omega
  have hlb : p < n + H := by omega
  have hubQ : (n : ℚ) ≤ (H : ℚ) * (q : ℚ) := by exact_mod_cast hp ▸ hub
  have hlbQ : (H : ℚ) * (q : ℚ) < (n : ℚ) + (H : ℚ) := by exact_mod_cast hp ▸ hlb
  have hH0 : (0 : ℚ) < (H : ℚ) := by exact_mod_cast hH
  have hcast : (((q : Nat) : Int) : ℚ) = (q : ℚ) := by push_cast; ring
  symm
  rw [Int.ceil_eq_iff, hcast]
  constructor
  · rw [lt_div_iff₀ hH0]
    linarith
  · rw [div_le_iff₀ hH0]
    linarith

/-- The hour count computed by createBooking is the ceiling of the exact
rational duration in hours, whenever the window is valid. -/
theorem ceilHours_eq_ceil (s e : Int) (h : s < e) :
    (ceilHours s e : Int) = ⌈((e - s : Int) : ℚ) / (msPerHour : ℚ)⌉ := by
  have h0 : (0 : Int) ≤ e - s := by omega
  have hds : ((e - s).toNat : Int) = e - s := Int.toNat_of_nonneg h0
  have hH : 0 < msPerHour := by norm_num [msPerHour]
  have hmain := natCeilDiv_eq_ceil (e - s).toNat msPerHour hH
  have hcast2 : (((e - s).toNat : Nat) : ℚ) = ((e - s : Int) : ℚ) := by
    exact_mod_cast hds
  unfold ceilHours
  rw [hmain]
  congr 1
  rw [hcast2]

/-- Rewriting the status of one space row commutes with looking that row
up by id. -/
theorem find_set_helper (l : List ParkingSpace) (id : Nat) (st : String) :
    (l.map (fun sp => if sp.id == id then { sp with status := st } else sp)).find?
        (fun sp => sp.id == id) =
      (l.find? (fun sp => sp.id == id)).map (fun sp => { sp with status := st }) := by
  induction l with
  | nil => rfl
  | cons a l ih =>
    by_cases h : (a.id == id) = true
    · have hmap : (if a.id == id then { a with status := st } else a) = { a with status := st } :=
        if_pos h
      have h2 : (({ a with status := st } : ParkingSpace).id == id) = true := by simpa using h
      rw [List.map_cons, hmap, List.find?_cons, List.find?_cons, h2]
      rfl
    · have hmap : (if a.id == id then { a with status := st } else a) = a := if_neg h
      have h2 : (a.id == id) = false := by simpa using h
      rw [List.map_cons, hmap, List.find?_cons, List.find?_cons, h2]
      exact ih

/-- Looking a space up after `setSpaceStatus` on the same id returns the
row with its status rewritten. -/
theorem findSpace_setSpaceStatus (db : DB) (id : Nat) (st : String) :
    findSpace (setSpaceStatus db id st) id =
      (findSpace db id).map (fun sp => { sp with status := st }) := by
  unfold findSpace setSpaceStatus
  exact find_set_helper db.spaces id st

/-- Claim C1, counterexample: the overlap invariant of the specification
is violated in a reachable store state. `doubleBookingTrace` creates a
pending booking, lets its owner update it with status pending (freeing
the space), and then creates a second, overlapping booking on the same
space: the conflict query of createBooking considers only confirmed and
active bookings, so the pending booking does not block, and the resulting
store holds two overlapping pending bookings for space 1. -/
theorem C1_counterexample : ¬ noOverlapInvariant (runOps doubleBookingTrace) := by decide

/-- Claim C1, amended: for a valid window on an existing available space,
createBooking reports Conflict precisely when some booking of the space
has status confirmed or active (any such booking blocks, because the
or-filter of the conflict query matches every valid window), and when no
such booking exists the request succeeds with a pending booking even if
pending bookings of the space overlap the requested window. -/
theorem C1_amended (db : DB) (r : CreateReq) (sp : ParkingSpace)
    (hw : r.startTime < r.endTime)
    (hsp : findSpace db r.spaceId = some sp)
    (hav : sp.status = "available")
    (hvalid : ∀ b ∈ db.bookings, b.startTime < b.endTime) :
    ((createBooking db r).1 = .conflict ↔
      ∃ b ∈ db.bookings, b.spaceId = r.spaceId ∧ (b.status = "confirmed" ∨ b.status = "active")) ∧
    ((¬ ∃ b ∈ db.bookings, b.spaceId = r.spaceId ∧ (b.status = "confirmed" ∨ b.status = "active")) →
      ∃ b2, (createBooking db r).1 = .created b2 ∧ b2.status = "pending") := by
  have hchar : 0 < (conflictingBookings db r.spaceId r.startTime r.endTime).length ↔
      ∃ b ∈ db.bookings, b.spaceId = r.spaceId ∧ (b.status = "confirmed" ∨ b.status = "active") := by
    constructor
    · intro hlen
      obtain ⟨b, hb⟩ := List.exists_mem_of_ne_nil _ (List.length_pos.1 hlen)
      rw [conflictingBookings, List.mem_filter] at hb
      obtain ⟨hbmem, hpred⟩ := hb
      simp only [Bool.and_eq_true, Bool.or_eq_true, beq_iff_eq] at hpred
      exact ⟨b, hbmem, hpred.1.1, hpred.1.2⟩
    · rintro ⟨b, hbmem, hbsp, hbst⟩
      have hwin := hvalid b hbmem
      have hor : createOrTest b.startTime b.endTime r.startTime r.endTime = true := by
        unfold createOrTest
        simp only [Bool.or_eq_true, decide_eq_true_eq]
        omega
      have hmem : b ∈ conflictingBookings db r.spaceId r.startTime r.endTime := by
        rw [conflictingBookings, List.mem_filter]
        refine ⟨hbmem, ?_⟩
        simp only [Bool.and_eq_true, Bool.or_eq_true, beq_iff_eq]
        exact ⟨⟨hbsp, hbst⟩, hor⟩
      exact List.length_pos.2 (List.ne_nil_of_mem hmem)
  by_cases hc : 0 < (conflictingBookings db r.spaceId r.startTime r.endTime).length
  · have h1 : (createBooking db r).1 = .conflict := by
      unfold createBooking
      rw [hsp]
      simp [hw, hav, hc]
    refine ⟨⟨fun _ => hchar.1 hc, fun _ => h1⟩, fun hno => absurd (hchar.1 hc) hno⟩
  · have h1 : (createBooking db r).1 = .created
        { id := r.newId, userId := r.userId, spaceId := r.spaceId,
          startTime := r.startTime, endTime := r.endTime,
          totalAmount := ((ceilHours r.startTime r.endTime : Nat) : Int) * sp.hourlyRate,
          status := "pending", paymentStatus := "pending",
          vehicleNumber := r.vehicleNumber, cancelledAt := none } := by
      unfold createBooking
      rw [hsp]
      simp [hw, hav, hc]
    refine ⟨⟨fun hcon => ?_, fun hex => absurd (hchar.2 hex) hc⟩, fun _ => ⟨_, h1, rfl⟩⟩
    rw [hcon] at h1
    cases h1

/-- Witness for C1_amended at a concrete store: an available space whose
only booking is pending, with an overlapping creation request. -/
theorem C1_amended_witness :
    ((createBooking pendingOnlyDB reqTenThirtyToTwelve).1 = .conflict ↔
      ∃ b ∈ pendingOnlyDB.bookings, b.spaceId = reqTenThirtyToTwelve.spaceId ∧
        (b.status = "confirmed" ∨ b.status = "active")) ∧
    ((¬ ∃ b ∈ pendingOnlyDB.bookings, b.spaceId = reqTenThirtyToTwelve.spaceId ∧
        (b.status = "confirmed" ∨ b.status = "active")) →
      ∃ b2, (createBooking pendingOnlyDB reqTenThirtyToTwelve).1 = .created b2 ∧
        b2.status = "pending") :=
  C1_amended pendingOnlyDB reqTenThirtyToTwelve
    { id := 1, status := "available", hourlyRate := 1000 }
    (by decide) (by decide) (by decide) (by decide)

/-- Claim C2, counterexample: for the touching windows 09:00 to 11:00 and
11:00 to 12:00 the half-open test of the claim reports no conflict, yet
the availability filter matches (its bounds are inclusive) and the
or-filter of createBooking matches as well, so touching windows are
reported as conflicting by both code paths. -/
theorem C2_counterexample :
    availWindowTest 32400000 39600000 39600000 43200000 = true ∧
    createOrTest 32400000 39600000 39600000 43200000 = true ∧
    overlapHalfOpen 32400000 39600000 39600000 43200000 = false := by decide

/-- Claim C2, amended: the availability filter holds iff s2 LE e1 AND
s1 LE e2 (closed bounds, so windows that merely touch at an endpoint are
reported), and the or-filter used by createBooking holds for every pair
of valid windows whatsoever. -/
theorem C2_amended (s1 e1 s2 e2 : Int) (h1 : s1 < e1) (h2 : s2 < e2) :
    (availWindowTest s1 e1 s2 e2 = true ↔ (s2 ≤ e1 ∧ s1 ≤ e2)) ∧
    createOrTest s1 e1 s2 e2 = true := by
  unfold availWindowTest createOrTest
  constructor
  · simp only [Bool.and_eq_true, decide_eq_true_eq, ge_iff_le]
  · simp only [Bool.or_eq_true, decide_eq_true_eq, ge_iff_le]
    omega

/-- Witness for C2_amended at the touching windows of the scenario. -/
theorem C2_amended_witness :
    (availWindowTest 32400000 39600000 39600000 43200000 = true ↔
      ((39600000 : Int) ≤ 39600000 ∧ (32400000 : Int) ≤ 43200000)) ∧
    createOrTest 32400000 39600000 39600000 43200000 = true :=
  C2_amended 32400000 39600000 39600000 43200000 (by decide) (by decide)

/-- Claim C3, counterexample: after the 09:00 to 11:00 booking is created
on the available ten-dollar space, the overlapping 10:30 to 12:00 request
fails with SpaceUnavailable (the space status is now reserved and the
handler rejects before reaching the conflict query), not with Conflict as
the claim states. -/
theorem C3_counterexample :
    (createBooking afterFirstBookingDB reqTenThirtyToTwelve).1 = .spaceUnavailable ∧
    (createBooking afterFirstBookingDB reqTenThirtyToTwelve).1 ≠ .conflict := by decide

/-- Claim C3, amended: the first request succeeds with a pending booking
of total amount 2000 cents and moves the space to reserved; both the
overlapping 10:30 to 12:00 request and the touching 11:00 to 12:00
request then fail with SpaceUnavailable, because the space is no longer
available. -/
theorem C3_amended :
    (createBooking oneSpaceDB reqNineToEleven).1 = .created bookingNineToEleven ∧
    bookingNineToEleven.status = "pending" ∧
    bookingNineToEleven.totalAmount = 2000 ∧
    findSpace afterFirstBookingDB 1 = some { id := 1, status := "reserved", hourlyRate := 1000 } ∧
    (createBooking afterFirstBookingDB reqTenThirtyToTwelve).1 = .spaceUnavailable ∧
    (createBooking afterFirstBookingDB reqElevenToTwelve).1 = .spaceUnavailable := by decide

end Parking

namespace Parking

/-- Claim C4, counterexample: the transition pending to active is not in
the legal set of the claim, yet the update handler applies it and reports
success, also moving the space to occupied; no request ever fails with an
IllegalTransition outcome. -/
theorem C4_counterexample :
    (updateBooking afterFirstBookingDB updActiveReq).1 =
      .updated { bookingNineToEleven with status := "active" } ∧
    (updateBooking afterFirstBookingDB updActiveReq).2.spaces =
      [{ id := 1, status := "occupied", hourlyRate := 1000 }] := by decide

/-- Claim C4, amended: for every booking found by the update handler, and
every requested status from the schema set pending, confirmed, active,
completed, cancelled, the update succeeds regardless of the current
status of the booking — there is no transition check and no
IllegalTransition failure — and the booking row and the space status are
both rewritten (the space per the mapping active to occupied, confirmed
to reserved, everything else to available). -/
theorem C4_amended (db : DB) (r : UpdateReq) (s : String) (b0 : Booking)
    (hs : r.status = some s) (hvalid : s ∈ validStatuses)
    (hfind : findBooking db r.bookingId = some b0)
    (hperm : b0.userId = r.userId ∨ isStaffOrAdmin r.role = true) :
    updateBooking db r =
      (.updated (applyUpdates b0 r),
       setSpaceStatus (mapBooking db r.bookingId (fun b => applyUpdates b r))
         b0.spaceId (spaceStatusFor s)) := by
  have hv : updateStatusValid (some s) = true := by
    simp only [validStatuses, List.mem_cons, List.not_mem_nil, or_false] at hvalid
    rcases hvalid with rfl | rfl | rfl | rfl | rfl <;> decide
  have hp : (b0.userId != r.userId && !(isStaffOrAdmin r.role)) = false := by
    rcases hperm with h | h
    · simp [h]
    · simp [h]
  unfold updateBooking
  rw [hfind, hs]
  simp [hv, hp, applyUpdates]

/-- Witness for C4_amended: the pending 09:00 to 11:00 booking is moved
directly to active by its owner. -/
theorem C4_amended_witness :
    updateBooking afterFirstBookingDB updActiveReq =
      (.updated (applyUpdates bookingNineToEleven updActiveReq),
       setSpaceStatus
         (mapBooking afterFirstBookingDB 100 (fun b => applyUpdates b updActiveReq))
         1 (spaceStatusFor "active")) :=
  C4_amended afterFirstBookingDB updActiveReq "active" bookingNineToEleven
    (by decide) (by decide) (by decide) (by decide)

/-- Claim C5, counterexample: cancelling an active booking succeeds,
whereas the claim requires NotCancellable from status active. -/
theorem C5_counterexample :
    (cancelBooking activeBookingDB cancelReq100).1 = .ok := by decide

/-- Claim C5, amended: cancellation fails with NotCancellable exactly
from the statuses completed and cancelled, leaving the store unchanged
(in particular cancelling a completed booking never mutates the space
status); from every other status — including active — it succeeds,
setting the booking to cancelled with a timestamp and the space to
available. -/
theorem C5_amended (db : DB) (r : CancelReq) (b0 : Booking)
    (hfind : findBooking db r.bookingId = some b0)
    (hperm : b0.userId = r.userId ∨ isStaffOrAdmin r.role = true) :
    ((b0.status = "completed" ∨ b0.status = "cancelled") →
      cancelBooking db r = (.notCancellable, db)) ∧
    (b0.status ≠ "completed" → b0.status ≠ "cancelled" →
      cancelBooking db r =
        (.ok, setSpaceStatus
          (mapBooking db r.bookingId
            (fun b => { b with status := "cancelled", cancelledAt := some r.now }))
          b0.spaceId "available")) := by
  have hp : (b0.userId != r.userId && !(isStaffOrAdmin r.role)) = false := by
    rcases hperm with h | h
    · simp [h]
    · simp [h]
  constructor
  · intro hterm
    have ht : (b0.status == "completed" || b0.status == "cancelled") = true := by
      rcases hterm with h | h <;> simp [h]
    unfold cancelBooking
    rw [hfind]
    simp [hp, ht]
  · intro h1 h2
    have ht : (b0.status == "completed" || b0.status == "cancelled") = false := by
      simp [h1, h2]
    unfold cancelBooking
    rw [hfind]
    simp [hp, ht]

/-- Witness for C5_amended at the active booking: the terminal branch is
vacuous and the success branch applies. -/
theorem C5_amended_witness :
    ((activeBooking.status = "completed" ∨ activeBooking.status = "cancelled") →
      cancelBooking activeBookingDB cancelReq100 = (.notCancellable, activeBookingDB)) ∧
    (activeBooking.status ≠ "completed" → activeBooking.status ≠ "cancelled" →
      cancelBooking activeBookingDB cancelReq100 =
        (.ok, setSpaceStatus
          (mapBooking activeBookingDB 100
            (fun b => { b with status := "cancelled", cancelledAt := some 43200000 }))
          1 "available")) :=
  C5_amended activeBookingDB cancelReq100 activeBooking (by decide) (by decide)

/-- Claim C6, counterexample: updating the booking of a maintenance space
to completed rewrites the space status to available; the claim states the
space status must be left untouched while in maintenance. -/
theorem C6_counterexample :
    (updateBooking maintenanceDB updCompletedReq).2.spaces =
      [{ id := 1, status := "available", hourlyRate := 1000 }] := by decide

/-- Claim C6, amended: maintenance takes no precedence — booking-driven
transitions rewrite the space status unconditionally. For a maintenance
space, cancelling a cancellable booking of the space sets the space to
available, and an update supplying any valid status other than active and
confirmed likewise sets the space to available. -/
theorem C6_amended (db : DB) (rc : CancelReq) (ru : UpdateReq) (s : String)
    (bc bu : Booking) (spc spu : ParkingSpace)
    (hcfind : findBooking db rc.bookingId = some bc)
    (hcperm : bc.userId = rc.userId ∨ isStaffOrAdmin rc.role = true)
    (hcst1 : bc.status ≠ "completed") (hcst2 : bc.status ≠ "cancelled")
    (hcsp : findSpace db bc.spaceId = some spc) (hcm : spc.status = "maintenance")
    (hus : ru.status = some s) (husval : s ∈ validStatuses)
    (hsact : s ≠ "active") (hsconf : s ≠ "confirmed")
    (hufind : findBooking db ru.bookingId = some bu)
    (huperm : bu.userId = ru.userId ∨ isStaffOrAdmin ru.role = true)
    (husp : findSpace db bu.spaceId = some spu) (hum : spu.status = "maintenance") :
    findSpace (cancelBooking db rc).2 bc.spaceId = some { spc with status := "available" } ∧
    findSpace (updateBooking db ru).2 bu.spaceId = some { spu with status := "available" } := by
  constructor
  · have hp : (bc.userId != rc.userId && !(isStaffOrAdmin rc.role)) = false := by
      rcases hcperm with h | h
      · simp [h]
      · simp [h]
    have ht : (bc.status == "completed" || bc.status == "cancelled") = false := by
      simp [hcst1, hcst2]
    have hred : (cancelBooking db rc).2 =
        setSpaceStatus
          (mapBooking db rc.bookingId
            (fun b => { b with status := "cancelled", cancelledAt := some rc.now }))
          bc.spaceId "available" := by
      unfold cancelBooking
      rw [hcfind]
      simp [hp, ht]
    rw [hred, findSpace_setSpaceStatus]
    have hmb : findSpace
        (mapBooking db rc.bookingId
          (fun b => { b with status := "cancelled", cancelledAt := some rc.now }))
        bc.spaceId = findSpace db bc.spaceId := rfl
    rw [hmb, hcsp]
    rfl
  · have hv : updateStatusValid (some s) = true := by
      simp only [validStatuses, List.mem_cons, List.not_mem_nil, or_false] at husval
      rcases husval with rfl | rfl | rfl | rfl | rfl <;> decide
    have hp : (bu.userId != ru.userId && !(isStaffOrAdmin ru.role)) = false := by
      rcases huperm with h | h
      · simp [h]
      · simp [h]
    have hsf : spaceStatusFor s = "available" := by
      simp [spaceStatusFor, hsact, hsconf]
    have hred : (updateBooking db ru).2 =
        setSpaceStatus (mapBooking db ru.bookingId (fun b => applyUpdates b ru))
          bu.spaceId (spaceStatusFor s) := by
      unfold updateBooking
      rw [hufind, hus]
      simp [hv, hp, applyUpdates]
    rw [hred, hsf, findSpace_setSpaceStatus]
    have hmb : findSpace (mapBooking db ru.bookingId (fun b => applyUpdates b ru))
        bu.spaceId = findSpace db bu.spaceId := rfl
    rw [hmb, husp]
    rfl

/-- Witness for C6_amended at the maintenance space carrying a confirmed
booking, with a cancellation and an update to completed. -/
theorem C6_amended_witness :
    findSpace (cancelBooking maintenanceDB cancelReq100).2 1 =
      some { maintenanceSpace with status := "available" } ∧
    findSpace (updateBooking maintenanceDB updCompletedReq).2 1 =
      some { maintenanceSpace with status := "available" } :=
  C6_amended maintenanceDB cancelReq100 updCompletedReq "completed"
    confirmedBooking confirmedBooking maintenanceSpace maintenanceSpace
    (by decide) (by decide) (by decide) (by decide) (by decide) (by decide)
    (by decide) (by decide) (by decide) (by decide)
    (by decide) (by decide) (by decide) (by decide)

/-- Claim C7, counterexample: after a failed processor outcome the
booking is left entirely unchanged — its payment status is still pending,
not failed as the claim states (only the inserted payment row carries the
failure). -/
theorem C7_counterexample :
    (processPayment pendingPaymentDB payFailReq).1 = .processed "failed" ∧
    findBooking (processPayment pendingPaymentDB payFailReq).2 100 = some pendingBooking ∧
    pendingBooking.paymentStatus = "pending" := by decide

/-- Claim C7, amended: for a booking that passes the precondition checks,
a successful processor outcome sets the booking payment status to paid
and its status to confirmed in one update, while a failed outcome leaves
the bookings table entirely unchanged — the booking keeps whatever
payment status it had, and only the payment row records the failure. -/
theorem C7_amended (db : DB) (r : PayReq) (b0 : Booking)
    (hm : r.method ∈ validMethods) (hpos : 0 < r.amount)
    (hfind : findBooking db r.bookingId = some b0)
    (hown : b0.userId = r.userId) (hamt : r.amount = b0.totalAmount)
    (hnotpaid : b0.paymentStatus ≠ "paid") :
    (r.processorSucceeds = true →
      (processPayment db r).1 = .processed "completed" ∧
      (processPayment db r).2.bookings =
        (mapBooking db r.bookingId
          (fun b => { b with paymentStatus := "paid", status := "confirmed" })).bookings) ∧
    (r.processorSucceeds = false →
      (processPayment db r).1 = .processed "failed" ∧
      (processPayment db r).2.bookings = db.bookings) := by
  have hpos2 : 0 < b0.totalAmount := hamt ▸ hpos
  have hng : ¬ (b0.totalAmount ≤ 0) := not_le.2 hpos2
  constructor
  · intro hsucc
    unfold processPayment
    rw [hfind]
    simp [hm, hng, hown, hamt, hnotpaid, hsucc, mapBooking]
  · intro hfail
    unfold processPayment
    rw [hfind]
    simp [hm, hng, hown, hamt, hnotpaid, hfail]

/-- Witness for C7_amended at the pending unpaid booking with a failed
processor outcome: the success branch is vacuous and the failure branch
applies. -/
theorem C7_amended_witness :
    (payFailReq.processorSucceeds = true →
      (processPayment pendingPaymentDB payFailReq).1 = .processed "completed" ∧
      (processPayment pendingPaymentDB payFailReq).2.bookings =
        (mapBooking pendingPaymentDB 100
          (fun b => { b with paymentStatus := "paid", status := "confirmed" })).bookings) ∧
    (payFailReq.processorSucceeds = false →
      (processPayment pendingPaymentDB payFailReq).1 = .processed "failed" ∧
      (processPayment pendingPaymentDB payFailReq).2.bookings = pendingPaymentDB.bookings) :=
  C7_amended pendingPaymentDB payFailReq pendingBooking
    (by decide) (by decide) (by decide) (by decide) (by decide) (by decide)

/-- Claim C8, confirmed: whenever createBooking succeeds, the total
amount of the created booking equals the ceiling of the exact duration in
hours multiplied by the hourly rate of the space. -/
theorem C8_totalAmount (db : DB) (r : CreateReq) (b : Booking) (db2 : DB)
    (h : createBooking db r = (.created b, db2)) :
    ∃ sp, findSpace db r.spaceId = some sp ∧
      b.totalAmount = ⌈((r.endTime - r.startTime : Int) : ℚ) / (msPerHour : ℚ)⌉ * sp.hourlyRate := by
  unfold createBooking at h
  split at h
  · simp at h
  next hw =>
    have hw2 : r.startTime < r.endTime := by simpa using hw
    split at h
    · simp at h
    next space hsp =>
      split at h
      · simp at h
      · split at h
        · simp at h
        · rw [Prod.mk.injEq] at h
          obtain ⟨hb, -⟩ := h
          rw [CreateRes.created.injEq] at hb
          refine ⟨space, hsp, ?_⟩
          rw [← hb]
          show (ceilHours r.startTime r.endTime : Int) * space.hourlyRate = _
          rw [ceilHours_eq_ceil _ _ hw2]

/-- Witness for C8_totalAmount at the 09:00 to 11:00 booking on the
ten-dollar space. -/
theorem C8_totalAmount_witness :
    ∃ sp, findSpace oneSpaceDB 1 = some sp ∧
      bookingNineToEleven.totalAmount =
        ⌈((39600000 - 32400000 : Int) : ℚ) / (msPerHour : ℚ)⌉ * sp.hourlyRate :=
  C8_totalAmount oneSpaceDB reqNineToEleven bookingNineToEleven afterFirstBookingDB (by decide)

/-- Claim C9, confirmed: processing a payment never changes the spaces
table, whatever the request and outcome — validation failure, missing
booking, ownership failure, amount mismatch, already-paid rejection,
success and failure all leave every space row as it was. -/
theorem C9_spaces_unchanged (db : DB) (r : PayReq) :
    (processPayment db r).2.spaces = db.spaces := by
  unfold processPayment
  split
  · rfl
  · split
    · rfl
    · split
      · rfl
      · split
        · rfl
        · split
          · rfl
          · split <;> rfl

/-- Claim C10, counterexample: an update call whose status value is the
unrecognized string garbage is rejected by the Joi schema before the
handler runs, so the store — in particular the space status, still
reserved — is unchanged, contradicting the claim that every non-active,
non-confirmed supplied status sets the space to available. -/
theorem C10_counterexample :
    updateBooking pendingPaymentDB updGarbageReq = (.validationError, pendingPaymentDB) ∧
    findSpace pendingPaymentDB 1 = some { id := 1, status := "reserved", hourlyRate := 1000 } := by
  decide

/-- Claim C10, amended: for an update call that supplies one of the valid
status values other than active and confirmed — pending, completed or
cancelled — on a booking the caller may update, the space of the booking
is set to available as a side effect; a call supplying a status string
outside the schema set is rejected by validation and changes nothing. -/
theorem C10_amended (db : DB) (r : UpdateReq) (s : String) (b0 : Booking)
    (hs : r.status = some s)
    (hset : s = "pending" ∨ s = "completed" ∨ s = "cancelled")
    (hfind : findBooking db r.bookingId = some b0)
    (hperm : b0.userId = r.userId ∨ isStaffOrAdmin r.role = true)
    (r2 : UpdateReq) (t : String)
    (ht : r2.status = some t) (htbad : t ∉ validStatuses) :
    (updateBooking db r).2 =
      setSpaceStatus (mapBooking db r.bookingId (fun b => applyUpdates b r))
        b0.spaceId "available" ∧
    updateBooking db r2 = (.validationError, db) := by
  constructor
  · have hv : updateStatusValid (some s) = true := by
      rcases hset with rfl | rfl | rfl <;> decide
    have hp : (b0.userId != r.userId && !(isStaffOrAdmin r.role)) = false := by
      rcases hperm with h | h
      · simp [h]
      · simp [h]
    have hsf : spaceStatusFor s = "available" := by
      rcases hset with rfl | rfl | rfl <;> decide
    have hred : (updateBooking db r).2 =
        setSpaceStatus (mapBooking db r.bookingId (fun b => applyUpdates b r))
          b0.spaceId (spaceStatusFor s) := by
      unfold updateBooking
      rw [hfind, hs]
      simp [hv, hp, applyUpdates]
    rw [hred, hsf]
  · have hvf : updateStatusValid r2.status = false := by
      rw [ht]
      unfold updateStatusValid
      show validStatuses.contains t = false
      cases hc : validStatuses.contains t
      · rfl
      · exact absurd (List.mem_of_elem_eq_true hc) htbad
    unfold updateBooking
    rw [hvf]
    rfl

/-- Witness for C10_amended: the update to completed on the pending
booking of the reserved space, next to the rejected garbage update. -/
theorem C10_amended_witness :
    (updateBooking pendingPaymentDB updCompletedReq).2 =
      setSpaceStatus
        (mapBooking pendingPaymentDB 100 (fun b => applyUpdates b updCompletedReq))
        1 "available" ∧
    updateBooking pendingPaymentDB updGarbageReq = (.validationError, pendingPaymentDB) :=
  C10_amended pendingPaymentDB updCompletedReq "completed" pendingBooking
    (by decide) (by decide) (by decide) (by decide)
    updGarbageReq "garbage" (by decide) (by decide)

end Parking
